import Mathlib

/-!
Verification development for the canopy LLM provider-abstraction layer
(Cohere backend adapter and the Cohere native query generator).

The Python sources are shallowly embedded: each method that issues an
outbound vendor request is modelled as a pure function returning
`Except PyError request`, where the `.ok` payload is exactly the keyword
arguments the source passes to the vendor client, and an `.error` value
means the method raised before any outbound request was issued.
Wall-clock timestamps (`time.time()`) are not modelled; no claim
mentions them.
-/

set_option linter.unusedVariables false

namespace Canopy

/-- Canonical message roles (canopy.models.data_models.Role). -/
inductive Role
  | user
  | system
  | assistant
  deriving DecidableEq, Repr

/-- Canonical chat message (canopy.models.data_models.MessageBase):
a role plus text content. -/
structure MessageBase where
  role : Role
  content : String
  deriving DecidableEq, Repr

/-- A structured context snippet `{source, text}` as produced by the
stuffing context builder. -/
structure ContextSnippet where
  source : String
  text : String
  deriving DecidableEq, Repr

/-- Retrieved context payload (canopy.models.data_models.Context):
optionally exposes structured snippets, always carries a token count.
`CohereLLM.chat_completion` in the source receives but never reads it. -/
structure Context where
  snippets : Option (List ContextSnippet)
  num_tokens : Int
  deriving DecidableEq, Repr

/-- A Python value as it appears in the model-parameter dictionaries
used by the adapter: strings, numbers, lists (of connector-id strings,
the only lists the source ever iterates), and None. -/
inductive PyValue
  | str (s : String)
  | int (n : Int)
  | list (xs : List String)
  | none
  deriving DecidableEq, Repr

/-- A Python `dict[str, Any]` with insertion order, as an association list
without duplicate keys. -/
abbrev Dict := List (String × PyValue)

/-- Python exceptions raised by the embedded methods. -/
inductive PyError
  | cohereAPIError (msg : String)
  | indexError
  | typeError
  | notImplementedError
  deriving DecidableEq, Repr

/-- `d[key]` lookup returning `none` when the key is absent. -/
def dictGet : Dict → String → Option PyValue
  | [], _ => Option.none
  | (k, v) :: rest, key => if k = key then some v else dictGet rest key

/-- `d[key] = v`: replace the value in place when the key is present
(Python dicts keep the key's original position), append otherwise. -/
def dictSet : Dict → String → PyValue → Dict
  | [], key, v => [(key, v)]
  | (k, w) :: rest, key, v =>
    if k = key then (k, v) :: rest else (k, w) :: dictSet rest key v

/-- `d.update(e)`: set every key of `e` in `d`, in `e`'s order. -/
def dictUpdate (d e : Dict) : Dict :=
  e.foldl (fun acc kv => dictSet acc kv.1 kv.2) d

/-- Remove a key from a dict. -/
def dictDel : Dict → String → Dict
  | [], _ => []
  | (k, v) :: rest, key =>
    if k = key then dictDel rest key else (k, v) :: dictDel rest key

/-- `d.pop(key, None)`: the popped value (or `none`) together with the
dict with the key removed. -/
def dictPop (d : Dict) (key : String) : Option PyValue × Dict :=
  (dictGet d key, dictDel d key)

/-- Python truthiness of a `PyValue` (`None`, empty containers, `""` and
`0` are falsy). -/
def truthy : PyValue → Bool
  | .str s => s != ""
  | .int n => n != 0
  | .list xs => !xs.isEmpty
  | .none => false

/-- A message in the format expected by the Cohere chat API:
`{"role": "USER" | "CHATBOT", "message": text}`. -/
structure CohereMessage where
  role : String
  message : String
  deriving DecidableEq, Repr

/-- `CohereLLM.map_messages` (src/canopy/llm/cohere.py): the loop that
skips messages with falsy content and appends
`{"role": "CHATBOT" if assistant else "USER", "message": content}`. -/
def map_messages (messages : List MessageBase) : List CohereMessage :=
  messages.foldl
    (fun mapped_messages message =>
      if message.content = "" then mapped_messages
      else mapped_messages ++
        [{ role := if message.role = Role.assistant then "CHATBOT" else "USER",
           message := message.content }]) []

/-- The adapter's per-instance state: the configured model name and the
generation defaults captured at construction (`self.model_name`,
`self.default_model_params`). The vendor client holds no state this
layer reads. -/
structure CohereLLM where
  model_name : String
  default_model_params : Dict
  deriving DecidableEq, Repr

/-- One element of the `connectors` kwarg: `{"id": connector}`. -/
structure CohereConnector where
  id : String
  deriving DecidableEq, Repr

/-- The keyword arguments `chat_completion` passes to
`self._client.chat(...)`. `extra_params` is the splatted
`**model_params_dict`. The source passes no documents field and nothing
derived from `context`. -/
structure CohereChatRequest where
  model : String
  message : String
  chat_history : List CohereMessage
  preamble_override : String
  stream : Bool
  connectors : Option (List CohereConnector)
  max_tokens : Option Int
  extra_params : Dict
  deriving DecidableEq, Repr

/-- `[{"id": connector} for connector in connectors] if connectors else
None`: falsy popped value gives None; a truthy list is mapped
element-wise; a truthy non-iterable raises TypeError (a truthy string
would iterate over its characters). -/
def render_connectors : Option PyValue → Except PyError (Option (List CohereConnector))
  | Option.none => .ok Option.none
  | some v =>
    if truthy v then
      match v with
      | .list cs => .ok (some (cs.map (fun c => { id := c })))
      | .str s => .ok (some (s.toList.map (fun c => { id := String.mk [c] })))
      | _ => .error .typeError
    else .ok Option.none

/-- `copy.deepcopy` on a parameter dict: in this value-semantics
embedding the copy is the value itself; its presence in the translation
records that the updates below act on the copy, never on the adapter's
stored `default_model_params`. -/
def deepcopy (d : Dict) : Dict := d

/-- `CohereLLM.chat_completion` up to the outbound vendor call: merges
`model_params` over deep-copied defaults, pops `connectors`, maps the
history, raises `CohereAPIError("No message provided")` on an empty
mapped history, and otherwise returns the kwargs passed to
`self._client.chat` together with the post-call adapter state. The
`context` argument appears in the source signature but is never read. -/
def chat_completion (llm : CohereLLM) (system_prompt : String)
    (chat_history : List MessageBase) (context : Option Context)
    (stream : Bool) (max_tokens : Option Int) (model_params : Option Dict) :
    Except PyError (CohereChatRequest × CohereLLM) :=
  let model_params_dict : Dict := deepcopy llm.default_model_params
  let model_params_dict := dictUpdate model_params_dict (model_params.getD [])
  let popped := dictPop model_params_dict "connectors"
  let connectors := popped.1
  let model_params_dict := popped.2
  let messages := map_messages chat_history
  match messages.getLast? with
  | Option.none => .error (.cohereAPIError "No message provided")
  | some last =>
    match render_connectors connectors with
    | .error e => .error e
    | .ok conns =>
      .ok ({ model := llm.model_name,
             message := last.message,
             chat_history := messages.dropLast,
             preamble_override := system_prompt,
             stream := stream,
             connectors := conns,
             max_tokens := max_tokens,
             extra_params := model_params_dict }, llm)

/-- One event of the Cohere streaming response, as read by
`streaming_iterator`: its `event_type`, generated `text`, and `id`. -/
structure VendorStreamEvent where
  event_type : String
  text : String
  id : String
  deriving DecidableEq, Repr

/-- The delta dict of a `_StreamChoice` built by `streaming_iterator`. -/
structure StreamDelta where
  content : Option String
  function_call : Option String
  role : Role
  tool_calls : Option String
  deriving DecidableEq, Repr

/-- `_StreamChoice`: index, delta, finish_reason. -/
structure StreamChoice where
  index : Nat
  delta : StreamDelta
  finish_reason : Option String
  deriving DecidableEq, Repr

/-- `StreamingChatChunk` as built by `streaming_iterator` (the
`created` wall-clock field is not modelled). -/
structure StreamingChatChunk where
  id : String
  object : String
  model : String
  choices : List StreamChoice
  deriving DecidableEq, Repr

/-- The `streaming_iterator` generator inside `chat_completion`: skips
every event whose `event_type` is not `"text-generation"`; for each
text-generation event yields one chunk built with `id = ''` then
overwritten with the event's id, one choice at index 0 whose delta
carries the event text and whose finish_reason is None. -/
def streaming_iterator (model_name : String) : List VendorStreamEvent → List StreamingChatChunk
  | [] => []
  | chunk :: rest =>
    if chunk.event_type ≠ "text-generation" then
      streaming_iterator model_name rest
    else
      let choice : StreamChoice :=
        { index := 0,
          delta := { content := some chunk.text,
                     function_call := Option.none,
                     role := Role.assistant,
                     tool_calls := Option.none },
          finish_reason := Option.none }
      let streaming_chat_chunk : StreamingChatChunk :=
        { id := "",
          object := "chat.completion.chunk",
          model := model_name,
          choices := [choice] }
      let streaming_chat_chunk := { streaming_chat_chunk with id := chunk.id }
      streaming_chat_chunk :: streaming_iterator model_name rest

/-- The keyword arguments `generate_search_queries` passes to
`self._client.chat(...)`. -/
structure CohereSearchQueriesRequest where
  model : String
  message : String
  chat_history : List CohereMessage
  stream : Bool
  search_queries_only : Bool
  deriving DecidableEq, Repr

/-- One attempt of `CohereLLM.generate_search_queries`, up to the
outbound vendor call: maps the history, then unconditionally evaluates
`messages[-1]` — which raises IndexError on an empty list, with no
emptiness guard — and builds the kwargs passed to `self._client.chat`. -/
def generate_search_queries_request (llm : CohereLLM)
    (messages : List MessageBase) : Except PyError CohereSearchQueriesRequest :=
  let messages := map_messages messages
  match messages.getLast? with
  | Option.none => .error .indexError
  | some last =>
    .ok { model := llm.model_name,
          message := last.message,
          chat_history := messages.dropLast,
          stream := false,
          search_queries_only := true }

/-- The tenacity `@retry(reraise=True, stop=stop_after_attempt(3))`
loop exactly as configured on `generate_search_queries`, over a backend
viewed as a function from the 1-based attempt number to that attempt's
outcome: call; on an exception re-attempt while fewer than 3 attempts
have been made; the third attempt's outcome — its exception reraised
unchanged, under `reraise=True` — is final. The result is paired with
the number of attempts made. -/
def with_retry (f : Nat → Except E A) : Except E A × Nat :=
  match f 1 with
  | .ok a => (.ok a, 1)
  | .error _ =>
    match f 2 with
    | .ok a => (.ok a, 2)
    | .error _ => (f 3, 3)

/-- Outcome of calling a Python method: it either returns a value
normally or raises an exception. -/
inductive PyOutcome (A : Type)
  | returns (v : A)
  | raises (e : PyError)
  deriving DecidableEq, Repr

/-- A value of the type `enforced_function_call` actually produces:
either the declared structured-result dict, or an exception object
handed back as an ordinary value. -/
inductive FuncCallResult
  | dict (d : Dict)
  | excValue (e : PyError)
  deriving DecidableEq, Repr

/-- `CohereLLM.enforced_function_call`: the source body is
`return NotImplementedError()` — it constructs the exception object and
returns it as the function's ordinary return value instead of raising
it (its async sibling `aenforced_function_call` does `raise`). -/
def enforced_function_call (llm : CohereLLM) (messages : List MessageBase)
    (max_tokens : Option Int) (model_params : Option Dict) :
    PyOutcome FuncCallResult :=
  .returns (.excValue .notImplementedError)

/-- `CohereLLM.aenforced_function_call`: `raise NotImplementedError()`. -/
def aenforced_function_call (llm : CohereLLM) (system_prompt : String)
    (chat_history : List MessageBase) (max_tokens : Option Int)
    (model_params : Option Dict) : PyOutcome FuncCallResult :=
  .raises .notImplementedError

/-- Modelled from the spec: a backend adapter as the query-generation
dispatcher sees it (`BaseLLM` is outside the provided sources), reduced
to the one capability §4.5 concerns — whether the adapter supports
native search-query generation. The default `CohereLLM()` adapter
supports it. -/
structure BackendAdapter where
  supports_native_query_generation : Bool
  deriving DecidableEq, Repr

/-- Modelled from the spec: history-pruning configuration constants used
by the prompt builder (`canopy.chat_engine.models` is outside the
provided sources). -/
inductive HistoryPruningMethod
  | RAISE
  deriving DecidableEq, Repr

/-- Modelled from the spec: the prompt-builder configuration object
constructed by `CohereQueryGenerator.__init__` (its internals are
outside the provided sources; only the constructor arguments matter). -/
structure PromptBuilder where
  method : HistoryPruningMethod
  capacity : Nat
  deriving DecidableEq, Repr

/-- The state `CohereQueryGenerator.__init__` builds. -/
structure CohereQueryGenerator where
  llm : BackendAdapter
  prompt_builder : PromptBuilder
  deriving DecidableEq, Repr

/-- `CohereQueryGenerator.__init__`
(src/canopy/chat_engine/query_generator/cohere.py): stores
`llm or CohereLLM()` and a `PromptBuilder(HistoryPruningMethod.RAISE, 1)`.
The body contains no capability check and no raise, so construction is
modelled as always returning `.ok`. -/
def CohereQueryGenerator.init (llm : Option BackendAdapter) :
    Except PyError CohereQueryGenerator :=
  .ok { llm := llm.getD { supports_native_query_generation := true },
        prompt_builder := { method := HistoryPruningMethod.RAISE, capacity := 1 } }

/-- Whether an `Except` value is the exception branch. -/
def isErr : Except E A → Bool
  | .error _ => true
  | .ok _ => false

/-- First-choice lookup: the override value when present, the default
otherwise (the per-key effect of `dict.update`). -/
def orDefault (a b : Option α) : Option α :=
  match a with
  | some v => some v
  | Option.none => b

/-- The per-message action of `map_messages`, for stating its
characterization: drop falsy content, otherwise map the role. -/
def mapMessagesFn (m : MessageBase) : Option CohereMessage :=
  if m.content = "" then Option.none
  else some { role := if m.role = Role.assistant then "CHATBOT" else "USER",
              message := m.content }

/-- The two-message chat history used by the system tests
(tests/system/llm/test_cohere.py). -/
def test_messages : List MessageBase :=
  [{ role := Role.user, content := "Hello, assistant." },
   { role := Role.assistant, content := "Hello, user. How can I assist you?" }]

/-- The stuffing context of
`test_chat_completion_with_stuffing_context_snippets`: one structured
snippet `{source, text}`. -/
def stuffing_context : Context :=
  { snippets := some [{ source := "http://www.example.com/document",
                        text := "Document text" }],
    num_tokens := 123 }

/-- An adapter configured as in the tests: model `"command"`, no
generation defaults. -/
def test_llm : CohereLLM :=
  { model_name := "command", default_model_params := [] }

/-- The vendor request `chat_completion` builds for `test_llm` on
`test_messages` with empty system prompt and no overrides — exactly the
kwargs `test_chat_completion_with_stuffing_context_snippets` asserts,
minus its expected documents field. -/
def test_request : CohereChatRequest :=
  { model := "command",
    message := "Hello, user. How can I assist you?",
    chat_history := [{ role := "USER", message := "Hello, assistant." }],
    preamble_override := "",
    stream := false,
    connectors := Option.none,
    max_tokens := Option.none,
    extra_params := [] }

/-- An adapter with construction-time generation defaults, among them a
`connectors` default. -/
def test_llm_with_defaults : CohereLLM :=
  { model_name := "command",
    default_model_params :=
      [("temperature", PyValue.int 1), ("connectors", PyValue.list ["web-search"])] }

/-- Per-call overrides: a key overriding a default and a fresh key. -/
def test_override_params : Dict :=
  [("temperature", PyValue.int 9), ("p", PyValue.int 2)]

/-- The vendor request built for `test_llm_with_defaults` under
`test_override_params`. -/
def test_request_merged : CohereChatRequest :=
  { model := "command",
    message := "Hello, user. How can I assist you?",
    chat_history := [{ role := "USER", message := "Hello, assistant." }],
    preamble_override := "",
    stream := false,
    connectors := some [{ id := "web-search" }],
    max_tokens := Option.none,
    extra_params := [("temperature", PyValue.int 9), ("p", PyValue.int 2)] }

/-! ## Helper lemmas -/

theorem map_messages_go (msgs : List MessageBase) :
    ∀ acc : List CohereMessage,
      msgs.foldl
        (fun mapped_messages message =>
          if message.content = "" then mapped_messages
          else mapped_messages ++
            [{ role := if message.role = Role.assistant then "CHATBOT" else "USER",
               message := message.content }]) acc
        = acc ++ msgs.filterMap mapMessagesFn := by
  induction msgs with
  | nil => intro acc; simp
  | cons m rest ih =>
    intro acc
    by_cases h : m.content = ""
    · simp [List.foldl_cons, h, mapMessagesFn, ih]
    · simp [List.foldl_cons, h, mapMessagesFn, ih]

theorem map_messages_eq (msgs : List MessageBase) :
    map_messages msgs = msgs.filterMap mapMessagesFn := by
  have := map_messages_go msgs []
  simpa [map_messages] using this

theorem map_messages_eq_nil (msgs : List MessageBase)
    (h : ∀ m ∈ msgs, m.content = "") : map_messages msgs = [] := by
  rw [map_messages_eq]
  rw [List.filterMap_eq_nil_iff]
  intro m hm
  simp [mapMessagesFn, h m hm]

theorem dictGet_dictSet (d : Dict) (k : String) (v : PyValue) (key : String) :
    dictGet (dictSet d k v) key = if k = key then some v else dictGet d key := by
  induction d with
  | nil => simp [dictGet, dictSet]
  | cons p rest ih =>
    obtain ⟨k0, w⟩ := p
    by_cases h0 : k0 = k
    · subst h0
      by_cases h1 : k0 = key <;> simp [dictGet, dictSet, h1]
    · by_cases h1 : k0 = key
      · subst h1
        have : ¬ k = k0 := fun h => h0 h.symm
        simp [dictGet, dictSet, h0, this]
      · simp [dictGet, dictSet, h0, h1, ih]

theorem dictGet_not_mem (d : Dict) (key : String)
    (h : key ∉ d.map Prod.fst) : dictGet d key = Option.none := by
  induction d with
  | nil => simp [dictGet]
  | cons p rest ih =>
    simp only [List.map_cons, List.mem_cons] at h
    push_neg at h
    have h1 : ¬ p.1 = key := fun he => h.1 he.symm
    obtain ⟨k0, w⟩ := p
    simp only [dictGet, if_neg h1]
    exact ih h.2

theorem dictGet_dictUpdate (e : Dict) : ∀ d : Dict,
    (e.map Prod.fst).Nodup →
    ∀ key, dictGet (dictUpdate d e) key
      = orDefault (dictGet e key) (dictGet d key) := by
  induction e with
  | nil => intro d he key; simp [dictUpdate, dictGet, orDefault]
  | cons p rest ih =>
    intro d he key
    obtain ⟨k0, v0⟩ := p
    simp only [List.map_cons, List.nodup_cons] at he
    have hstep : dictUpdate d ((k0, v0) :: rest) = dictUpdate (dictSet d k0 v0) rest := by
      simp [dictUpdate]
    rw [hstep, ih (dictSet d k0 v0) he.2 key, dictGet_dictSet]
    by_cases h1 : k0 = key
    · subst h1
      have : dictGet rest k0 = Option.none := by
        apply dictGet_not_mem
        exact he.1
      simp [dictGet, this, orDefault]
    · simp [dictGet, h1]

theorem dictGet_dictDel (d : Dict) (key k : String) :
    dictGet (dictDel d key) k
      = if key = k then Option.none else dictGet d k := by
  induction d with
  | nil => simp [dictGet, dictDel]
  | cons p rest ih =>
    obtain ⟨k0, w⟩ := p
    by_cases h0 : k0 = key
    · subst h0
      by_cases h1 : k0 = k
      · subst h1; simp [dictDel, ih]
      · have : ¬ k0 = k := h1
        simp [dictDel, dictGet, ih, this]
    · by_cases h1 : k0 = k
      · subst h1
        have h2 : ¬ key = k0 := fun he => h0 he.symm
        simp [dictDel, dictGet, h0, h2]
      · simp [dictDel, dictGet, h0, h1, ih]

theorem chat_completion_ok (llm : CohereLLM) (system_prompt : String)
    (chat_history : List MessageBase) (context : Option Context) (stream : Bool)
    (max_tokens : Option Int) (model_params : Option Dict)
    (req : CohereChatRequest) (llm2 : CohereLLM)
    (hok : chat_completion llm system_prompt chat_history context stream
            max_tokens model_params = .ok (req, llm2)) :
    llm2 = llm ∧
    req.extra_params
      = dictDel (dictUpdate llm.default_model_params (model_params.getD [])) "connectors" ∧
    render_connectors
        (dictGet (dictUpdate llm.default_model_params (model_params.getD [])) "connectors")
      = .ok req.connectors ∧
    ∃ last, (map_messages chat_history).getLast? = some last ∧
      req.message = last.message ∧
      req.chat_history = (map_messages chat_history).dropLast ∧
      req.model = llm.model_name ∧
      req.preamble_override = system_prompt ∧
      req.stream = stream ∧
      req.max_tokens = max_tokens := by
  simp only [chat_completion, deepcopy, dictPop] at hok
  cases hlast : (map_messages chat_history).getLast? with
  | none => rw [hlast] at hok; simp at hok
  | some last =>
    rw [hlast] at hok
    cases hconn : render_connectors
        (dictGet (dictUpdate llm.default_model_params (model_params.getD []))
          "connectors") with
    | error e => rw [hconn] at hok; simp at hok
    | ok conns =>
      rw [hconn] at hok
      simp only [Except.ok.injEq, Prod.mk.injEq] at hok
      obtain ⟨hreq, hllm⟩ := hok
      subst hreq
      subst hllm
      refine ⟨rfl, rfl, rfl, last, rfl, rfl, rfl, rfl, rfl, rfl, rfl⟩

/-! ## Claim theorems -/

/-- C4: for every chat history that is empty or whose messages all have
empty content, `chat_completion` raises the backend's native error
(`CohereAPIError("No message provided")`, the `InvalidRequest` kind)
before any outbound vendor request is issued — in this embedding an
`.error` result means the method raised before the request was built. -/
theorem c4_empty_history_invalid_request (llm : CohereLLM)
    (system_prompt : String) (chat_history : List MessageBase)
    (context : Option Context) (stream : Bool) (max_tokens : Option Int)
    (model_params : Option Dict)
    (hempty : ∀ m ∈ chat_history, m.content = "") :
    chat_completion llm system_prompt chat_history context stream
        max_tokens model_params
      = .error (.cohereAPIError "No message provided") := by
  have hm : map_messages chat_history = [] :=
    map_messages_eq_nil chat_history hempty
  simp only [chat_completion, deepcopy, dictPop]
  rw [hm]
  rfl

/-- Witness for C4: the all-empty-content history
`[user: "", assistant: ""]` is rejected concretely. -/
theorem c4_empty_history_invalid_request_witness :
    chat_completion test_llm "" [{ role := Role.user, content := "" },
        { role := Role.assistant, content := "" }] Option.none false
        Option.none Option.none
      = .error (.cohereAPIError "No message provided") :=
  c4_empty_history_invalid_request test_llm ""
    [{ role := Role.user, content := "" }, { role := Role.assistant, content := "" }]
    Option.none false Option.none Option.none (by decide)

/-- C5: whenever `chat_completion` issues a vendor request, the
request's `message` field is the content of the last filtered message
and its `chat_history` field is the list of all preceding filtered
messages in order (`messages[-1]` / `messages[:-1]` on the mapped
history). -/
theorem c5_current_turn_history_split (llm : CohereLLM)
    (system_prompt : String) (chat_history : List MessageBase)
    (context : Option Context) (stream : Bool) (max_tokens : Option Int)
    (model_params : Option Dict) (req : CohereChatRequest) (llm2 : CohereLLM)
    (hok : chat_completion llm system_prompt chat_history context stream
            max_tokens model_params = .ok (req, llm2)) :
    req.chat_history = (map_messages chat_history).dropLast ∧
    (map_messages chat_history).map CohereMessage.message
      = req.chat_history.map CohereMessage.message ++ [req.message] := by
  obtain ⟨-, -, -, last, hlast, hmsg, hhist, -⟩ :=
    chat_completion_ok llm system_prompt chat_history context stream
      max_tokens model_params req llm2 hok
  have hsplit : (map_messages chat_history).dropLast ++ [last]
      = map_messages chat_history :=
    List.dropLast_append_getLast? last (by rw [Option.mem_def]; exact hlast)
  refine ⟨hhist, ?_⟩
  rw [hhist, hmsg]
  nth_rewrite 1 [← hsplit]
  simp

/-- Witness for C5: on the tests' two-message history the current turn
is the assistant's last message and the history payload is the single
preceding user message. -/
theorem c5_current_turn_history_split_witness :
    test_request.chat_history = (map_messages test_messages).dropLast ∧
    (map_messages test_messages).map CohereMessage.message
      = test_request.chat_history.map CohereMessage.message
        ++ [test_request.message] :=
  c5_current_turn_history_split test_llm "" test_messages Option.none false
    Option.none Option.none test_request test_llm (by rfl)

/-- C6: `map_messages` is a pure function (hence deterministic) equal to
a filterMap that drops every message with empty content, maps
assistant-role messages to the vendor role `"CHATBOT"`, maps every other
role — including system — to `"USER"`, and preserves the relative order
of the remaining messages. -/
theorem c6_map_messages_characterization (msgs : List MessageBase) :
    map_messages msgs
      = msgs.filterMap (fun m =>
          if m.content = "" then Option.none
          else some { role := if m.role = Role.assistant then "CHATBOT" else "USER",
                      message := m.content }) :=
  map_messages_eq msgs

/-- C9: whenever `chat_completion` issues a vendor request, (a) the
adapter's stored `default_model_params` are unchanged after the call
(the source updates a deep copy), (b) every splatted parameter other
than the popped `connectors` key carries the per-call override when one
exists and the stored default otherwise, and (c) the `connectors` kwarg
is rendered from exactly that merged `connectors` value. The Nodup
hypothesis says the per-call override dict has no duplicate keys, which
Python dicts cannot have. -/
theorem c9_param_merge_and_defaults_frame (llm : CohereLLM)
    (system_prompt : String) (chat_history : List MessageBase)
    (context : Option Context) (stream : Bool) (max_tokens : Option Int)
    (model_params : Option Dict) (req : CohereChatRequest) (llm2 : CohereLLM)
    (k : String) (hk : k ≠ "connectors")
    (hnd : ((model_params.getD []).map Prod.fst).Nodup)
    (hok : chat_completion llm system_prompt chat_history context stream
            max_tokens model_params = .ok (req, llm2)) :
    llm2.default_model_params = llm.default_model_params ∧
    dictGet req.extra_params k
      = orDefault (dictGet (model_params.getD []) k)
          (dictGet llm.default_model_params k) ∧
    render_connectors
        (orDefault (dictGet (model_params.getD []) "connectors")
          (dictGet llm.default_model_params "connectors"))
      = .ok req.connectors := by
  obtain ⟨hllm, hextra, hconn, -⟩ :=
    chat_completion_ok llm system_prompt chat_history context stream
      max_tokens model_params req llm2 hok
  refine ⟨by rw [hllm], ?_, ?_⟩
  · rw [hextra, dictGet_dictDel]
    have hne : ¬ ("connectors" = k) := fun he => hk he.symm
    rw [if_neg hne]
    exact dictGet_dictUpdate (model_params.getD []) llm.default_model_params hnd k
  · rw [← dictGet_dictUpdate (model_params.getD []) llm.default_model_params hnd]
    exact hconn

/-- Witness for C9: a default `temperature` is overridden per-call, the
`connectors` default survives the merge into the connectors kwarg, and
the stored defaults are returned unchanged. -/
theorem c9_param_merge_and_defaults_frame_witness :
    test_llm_with_defaults.default_model_params
      = test_llm_with_defaults.default_model_params ∧
    dictGet test_request_merged.extra_params "temperature"
      = orDefault (dictGet ((some test_override_params).getD []) "temperature")
          (dictGet test_llm_with_defaults.default_model_params "temperature") ∧
    render_connectors
        (orDefault (dictGet ((some test_override_params).getD []) "connectors")
          (dictGet test_llm_with_defaults.default_model_params "connectors"))
      = .ok test_request_merged.connectors :=
  c9_param_merge_and_defaults_frame test_llm_with_defaults "" test_messages
    Option.none false Option.none (some test_override_params)
    test_request_merged test_llm_with_defaults "temperature" (by decide)
    (by decide) (by rfl)

/-- C1 (code bug): at the exact input of
`test_chat_completion_with_stuffing_context_snippets` — a non-empty
structured-snippet context — `chat_completion` neither injects the
context into the outbound request (the request carries no documents
field and nothing derived from the context; it is identical to the
no-context request) nor fails: the retrieved context is silently
dropped, contradicting the repository's own tests. -/
theorem c1_context_silently_dropped :
    chat_completion test_llm "" test_messages (some stuffing_context) false
        Option.none Option.none
      = chat_completion test_llm "" test_messages Option.none false
          Option.none Option.none ∧
    chat_completion test_llm "" test_messages (some stuffing_context) false
        Option.none Option.none
      = .ok (test_request, test_llm) := by
  constructor
  · rfl
  · rfl

/-- C2 counterexample: on a vendor stream whose final event is the
terminal `"stream-end"` event, `streaming_iterator` emits no final chunk
with `finish_reason` set — its entire output is one chunk for the
text-generation event, with `finish_reason = none`; the terminal event
is discarded like any other non-content event. -/
theorem c2_counterexample_no_terminal_chunk :
    streaming_iterator "command"
        [{ event_type := "text-generation", text := "Hi", id := "gen-1" },
         { event_type := "stream-end", text := "", id := "end-1" }]
      = [{ id := "gen-1", object := "chat.completion.chunk", model := "command",
           choices := [{ index := 0,
                         delta := { content := some "Hi",
                                    function_call := Option.none,
                                    role := Role.assistant,
                                    tool_calls := Option.none },
                         finish_reason := Option.none }] }] := by
  rfl

/-- C2 (amended): each vendor event is classified exactly one of two
ways — an event with `event_type = "text-generation"` yields exactly one
StreamingChunk whose delta carries the event's text and whose
`finish_reason` is null, and every other event (the terminal event
included) yields no chunk; the sequence ends by stream exhaustion, never
with a finish_reason-bearing chunk. -/
theorem c2_stream_event_classification (model_name : String)
    (events : List VendorStreamEvent) :
    streaming_iterator model_name events
      = (events.filter (fun e => e.event_type == "text-generation")).map
          (fun e =>
            { id := e.id, object := "chat.completion.chunk", model := model_name,
              choices := [{ index := 0,
                            delta := { content := some e.text,
                                       function_call := Option.none,
                                       role := Role.assistant,
                                       tool_calls := Option.none },
                            finish_reason := Option.none }] }) := by
  induction events with
  | nil => rfl
  | cons e rest ih =>
    by_cases h : e.event_type = "text-generation"
    · simp [streaming_iterator, h, List.filter_cons, ih]
    · simp [streaming_iterator, h, List.filter_cons, ih]

/-- C3: the `@retry(reraise=True, stop=stop_after_attempt(3))` policy on
`generate_search_queries`: a backend `f` failing on every attempt is
attempted exactly 3 times and the attempt-3 exception is reraised
unchanged; a backend `g` failing on the first `k < 3` attempts and
succeeding on attempt `k+1` returns that success after exactly `k+1`
attempts. -/
theorem c3_retry_three_attempts {E A : Type} (f g : Nat → Except E A)
    (hf : ∀ n, n < 3 → isErr (f (n + 1)) = true)
    (k : Nat) (hk : k < 3)
    (hg1 : ∀ n, n < k → isErr (g (n + 1)) = true)
    (hg2 : isErr (g (k + 1)) = false) :
    with_retry f = (f 3, 3) ∧ with_retry g = (g (k + 1), k + 1) := by
  constructor
  · have h1 := hf 0 (by norm_num)
    have h2 := hf 1 (by norm_num)
    cases he1 : f 1 with
    | ok a => rw [he1] at h1; simp [isErr] at h1
    | error e1 =>
      cases he2 : f 2 with
      | ok a => rw [he2] at h2; simp [isErr] at h2
      | error e2 => simp [with_retry, he1, he2]
  · interval_cases k
    · cases he1 : g 1 with
      | error e => rw [he1] at hg2; simp [isErr] at hg2
      | ok a => simp [with_retry, he1]
    · have h1 := hg1 0 (by norm_num)
      cases he1 : g 1 with
      | ok a => rw [he1] at h1; simp [isErr] at h1
      | error e1 =>
        cases he2 : g 2 with
        | error e => rw [he2] at hg2; simp [isErr] at hg2
        | ok a => simp [with_retry, he1, he2]
    · have h1 := hg1 0 (by norm_num)
      have h2 := hg1 1 (by norm_num)
      cases he1 : g 1 with
      | ok a => rw [he1] at h1; simp [isErr] at h1
      | error e1 =>
        cases he2 : g 2 with
        | ok a => rw [he2] at h2; simp [isErr] at h2
        | error e2 => simp [with_retry, he1, he2]

/-- Witness for C3: a backend that always raises is attempted 3 times
and the last exception propagates; a backend failing twice then
succeeding returns the success on attempt 3. -/
theorem c3_retry_three_attempts_witness :
    with_retry (fun n => (Except.error "boom" : Except String Nat))
      = ((fun n => (Except.error "boom" : Except String Nat)) 3, 3) ∧
    with_retry (fun n =>
        if n ≤ 2 then (Except.error "boom" : Except String Nat) else .ok 7)
      = ((fun n =>
          if n ≤ 2 then (Except.error "boom" : Except String Nat) else .ok 7) 3, 3) :=
  c3_retry_three_attempts
    (fun n => (Except.error "boom" : Except String Nat))
    (fun n => if n ≤ 2 then (Except.error "boom" : Except String Nat) else .ok 7)
    (by decide) 2 (by decide) (by decide) (by decide)

/-- C7 (code bug): `enforced_function_call` hands the
`NotImplementedError` back as its ordinary return value
(`return NotImplementedError()` in the source) — the caller observes a
successful return carrying an exception object, not a raised failure. -/
theorem c7_enforced_function_call_returns_not_raises :
    enforced_function_call test_llm test_messages Option.none Option.none
      = PyOutcome.returns (FuncCallResult.excValue PyError.notImplementedError) := by
  rfl

/-- C8 counterexample: constructing `CohereQueryGenerator` with an
adapter that does not support native query generation succeeds — no
`NotImplemented` is raised at construction time, refuting the fail-fast
claim. -/
theorem c8_counterexample_construction_succeeds :
    CohereQueryGenerator.init (some { supports_native_query_generation := false })
      = .ok { llm := { supports_native_query_generation := false },
              prompt_builder := { method := HistoryPruningMethod.RAISE,
                                  capacity := 1 } } := by
  rfl

/-- C8 (amended): `CohereQueryGenerator.__init__` performs no capability
check at all — for every configured adapter (supporting native query
generation or not) construction succeeds, storing the adapter (or the
default Cohere adapter) unchanged; a capability mismatch is not
surfaced at construction time. -/
theorem c8_construction_never_checks_capability (llm : Option BackendAdapter) :
    CohereQueryGenerator.init llm
      = .ok { llm := llm.getD { supports_native_query_generation := true },
              prompt_builder := { method := HistoryPruningMethod.RAISE,
                                  capacity := 1 } } := by
  rfl

/-- C10: on a chat history that is empty or all-empty-content,
`generate_search_queries` performs no emptiness guard: `messages[-1]` on
the empty mapped list raises IndexError, whereas `chat_completion` on
the same history raises its guarded
`CohereAPIError("No message provided")`. -/
theorem c10_unguarded_last_index (llm : CohereLLM)
    (messages : List MessageBase) (system_prompt : String)
    (context : Option Context) (stream : Bool) (max_tokens : Option Int)
    (model_params : Option Dict)
    (hempty : ∀ m ∈ messages, m.content = "") :
    generate_search_queries_request llm messages = .error .indexError ∧
    chat_completion llm system_prompt messages context stream max_tokens
        model_params
      = .error (.cohereAPIError "No message provided") := by
  have hm : map_messages messages = [] := map_messages_eq_nil messages hempty
  constructor
  · simp [generate_search_queries_request, hm]
  · simp only [chat_completion, deepcopy, dictPop]
    rw [hm]
    rfl

/-- Witness for C10: on the single all-empty message `[user: ""]` the
two methods take the two different error branches. -/
theorem c10_unguarded_last_index_witness :
    generate_search_queries_request test_llm [{ role := Role.user, content := "" }]
      = .error .indexError ∧
    chat_completion test_llm "" [{ role := Role.user, content := "" }]
        Option.none false Option.none Option.none
      = .error (.cohereAPIError "No message provided") :=
  c10_unguarded_last_index test_llm [{ role := Role.user, content := "" }] ""
    Option.none false Option.none Option.none (by decide)

end Canopy
